import Mathlib

/-!
Verification of the portfolio valuation / returns / attribution engine
(`portfolio_calculator.py`, class `PortfolioCalculator`) against its
natural-language specification.

Shallow embedding conventions:
* dates are `ℕ` (pandas `Timestamp`s are totally ordered; only order and
  equality of dates matter to the engine);
* money, prices and quantities are `ℚ` (Python floats, with rounding
  abstracted away; every formula of the engine is rational);
* pandas rows are structures, DataFrames are lists kept in the order the
  engine establishes (`sort_values('Fecha')` with a stable sort);
* Python `dict` position maps are association lists in insertion order;
* Python exceptions are `Except Unit`.
-/

/-! ### String normalisation as the engine performs it -/

/-- Whitespace for the purposes of Python's `str.strip()` (the subset that can
occur in the engine's kind strings). -/
def isPySpace (c : Char) : Bool :=
  c = ' ' || c = '\t' || c = '\n' || c = '\r'

/-- Model of Python `str.strip()`: drop whitespace from both ends. -/
def pyStrip (s : String) : String :=
  ⟨((s.data.dropWhile isPySpace).reverse.dropWhile isPySpace).reverse⟩

/-- Model of Python `str.lower()` on one character, for the alphabet the
engine's keyword lists use (ASCII letters plus accented Spanish capitals). -/
def pyLowerChar (c : Char) : Char :=
  if 'A' ≤ c ∧ c ≤ 'Z' then Char.ofNat (c.toNat + 32)
  else if c = 'Á' then 'á'
  else if c = 'É' then 'é'
  else if c = 'Í' then 'í'
  else if c = 'Ó' then 'ó'
  else if c = 'Ú' then 'ú'
  else if c = 'Ñ' then 'ñ'
  else c

/-- Model of Python `str.lower()`. -/
def pyLower (s : String) : String :=
  ⟨s.data.map pyLowerChar⟩

/-- `containsSub needle hay`: Python's `needle in hay` substring test. -/
def containsSub (needle : List Char) : List Char → Bool
  | [] => needle.isEmpty
  | c :: rest => needle.isPrefixOf (c :: rest) || containsSub needle rest

/-- The coupon/dividend keyword list of `portfolio_calculator.py`
(lines 194, 466, 573, 658). -/
def couponKeywords : List String :=
  ["cupón", "cupon", "dividendo", "coupon", "dividend", "interes", "interest"]

/-- The amortization keyword list of `portfolio_calculator.py`
(lines 201, 260, 471, 574, 663). -/
def amortKeywords : List String :=
  ["amortización", "amortizacion", "amortization"]

/-- `any(keyword in tipo.strip().lower() for keyword in kws)`. -/
def hasKeyword (kws : List String) (tipo : String) : Bool :=
  kws.any fun kw => containsSub kw.data (pyLower (pyStrip tipo)).data

/-- The six transaction kinds the engine distinguishes, plus the ignored rest. -/
inductive TxKind
  | buy | sell | coupon | amort | flujo | unknown
deriving DecidableEq, Repr

/-- The kind dispatch of `calculate_portfolio_value` (lines 171-209) and
`calculate_attribution_analysis` (lines 446-475): exact equality of the
stripped kind with `'Compra'`/`'Venta'`/`'Flujo'`, keyword substring search
(on the stripped, lowered kind) for coupons/dividends and amortizations,
testing the branches in the source's `if`/`elif` order. -/
def classify (tipo : String) : TxKind :=
  let t := pyStrip tipo
  if t = "Compra" then .buy
  else if t = "Venta" then .sell
  else if hasKeyword couponKeywords t then .coupon
  else if hasKeyword amortKeywords t then .amort
  else if t = "Flujo" then .flujo
  else .unknown

/-- The coupon/dividend matcher of `calculate_daily_returns` (line 259):
`Tipo.str.strip().isin(['Cupón', 'Cupon', 'Dividendo'])` — exact membership,
unlike the keyword search used elsewhere. -/
def isReturnsCoupon (tipo : String) : Bool :=
  pyStrip tipo = "Cupón" || pyStrip tipo = "Cupon" || pyStrip tipo = "Dividendo"

/-! ### Data model -/

/-- One row of the `operaciones` DataFrame (a ledger transaction), with the
column names of the source. -/
structure Operacion where
  fecha : ℕ
  tipo : String
  activo : String
  cantidad : ℚ
  precio_concertacion : ℚ
  monto : ℚ
deriving DecidableEq, Repr

/-- One row of the long-format `precios` DataFrame (a price observation). -/
structure Precio where
  fecha : ℕ
  activo : String
  precio : ℚ
deriving DecidableEq, Repr

/-- A per-asset position entry of the `positions` dict:
`{'cantidad': ..., 'precio_promedio': ...}`. -/
structure Position where
  cantidad : ℚ
  precio_promedio : ℚ
deriving DecidableEq, Repr

/-- Position maps are Python dicts keyed by the asset name; modelled as an
association list in insertion order. -/
abbrev Positions := List (String × Position)

/-- Dict lookup. -/
def findPos : Positions → String → Option Position
  | [], _ => none
  | (b, w) :: rest, a => if b = a then some w else findPos rest a

/-- Dict assignment to an existing key (in place) or a new key (appended,
matching Python's insertion order). -/
def setPos : Positions → String → Position → Positions
  | [], a, v => [(a, v)]
  | (b, w) :: rest, a, v => if b = a then (a, v) :: rest else (b, w) :: setPos rest a v

/-- `if asset not in positions: positions[asset] = {'cantidad': 0, 'precio_promedio': 0}`. -/
def ensurePos (ps : Positions) (a : String) : Positions :=
  if (findPos ps a).isSome then ps else ps ++ [(a, ⟨0, 0⟩)]

/-! ### Position Tracker -/

/-- The Buy update of lines 174-184 (identical in `_get_initial_positions`,
lines 110-121). -/
def buyUpdate (pos : Position) (cantidad precio : ℚ) : Position :=
  let newQty := pos.cantidad + cantidad
  if newQty > 0 then
    ⟨newQty, (pos.cantidad * pos.precio_promedio + cantidad * precio) / newQty⟩
  else
    ⟨newQty, precio⟩

/-- One iteration of the transaction loop of `calculate_portfolio_value`
(lines 161-209): the default-entry insertion, then the kind dispatch updating
the position map and the `cash_flow` accumulator. -/
def applyOp (st : Positions × ℚ) (op : Operacion) : Positions × ℚ :=
  let ps := ensurePos st.1 op.activo
  let pos := (findPos ps op.activo).getD ⟨0, 0⟩
  match classify op.tipo with
  | .buy => (setPos ps op.activo (buyUpdate pos op.cantidad op.precio_concertacion), st.2)
  | .sell => (setPos ps op.activo ⟨pos.cantidad - op.cantidad, pos.precio_promedio⟩, st.2)
  | .coupon => (ps, st.2)
  | .amort => (ps, st.2)
  | .flujo => (ps, st.2 + op.monto)
  | .unknown => (ps, st.2)

/-- One iteration of `_get_initial_positions` (lines 101-124): only the
`'Compra'` and `'Venta'` branches exist there. -/
def applyOpInit (ps : Positions) (op : Operacion) : Positions :=
  let ps := ensurePos ps op.activo
  let pos := (findPos ps op.activo).getD ⟨0, 0⟩
  if pyStrip op.tipo = "Compra" then
    setPos ps op.activo (buyUpdate pos op.cantidad op.precio_concertacion)
  else if pyStrip op.tipo = "Venta" then
    setPos ps op.activo ⟨pos.cantidad - op.cantidad, pos.precio_promedio⟩
  else ps

/-- `_get_initial_positions(start_date)`: replay of all transactions strictly
before the start date. -/
def getInitialPositions (ops : List Operacion) (startDate : ℕ) : Positions :=
  (ops.filter fun op => decide (op.fecha < startDate)).foldl applyOpInit []

/-- The transaction window used for date `d` (lines 139-146): all transactions
with `Fecha <= d`, further restricted to `Fecha >= start_date` when a start
date is set. -/
def opsUntil (ops : List Operacion) (sd : Option ℕ) (d : ℕ) : List Operacion :=
  match sd with
  | some s => ops.filter fun op => decide (op.fecha ≤ d) && decide (s ≤ op.fecha)
  | none => ops.filter fun op => decide (op.fecha ≤ d)

/-- The `(positions, cash_flow)` state `calculate_portfolio_value` reaches on
date `d`: the initial-position snapshot (when a start date is set) followed by
the replay of the date window. -/
def stateAt (ops : List Operacion) (sd : Option ℕ) (d : ℕ) : Positions × ℚ :=
  (opsUntil ops sd d).foldl applyOp
    ((match sd with | some s => getInitialPositions ops s | none => []), 0)

/-! ### Valuation Engine -/

/-- Latest price of `a` dated `≤ d` (lines 217-223): filter the
date-sorted price frame, take the last row. -/
def lastPriceUpTo (precios : List Precio) (a : String) (d : ℕ) : Option ℚ :=
  ((precios.filter fun p => p.activo = a && decide (p.fecha ≤ d)).getLast?).map (·.precio)

/-- The valuation loop of lines 211-226: assets with positive quantity and a
resolvable price contribute `cantidad * price`; everything else contributes 0. -/
def portfolioValueAt (precios : List Precio) (ps : Positions) (d : ℕ) : ℚ :=
  match ps with
  | [] => 0
  | p :: rest =>
    (if p.2.cantidad > 0 then
      match lastPriceUpTo precios p.1 d with
      | some price => p.2.cantidad * price
      | none => 0
     else 0) + portfolioValueAt precios rest d

/-- One row of the frame `calculate_portfolio_value` returns:
`{'Fecha', 'Valor_Cartera', 'Flujo_Cash'}`. -/
structure ValuationPoint where
  fecha : ℕ
  valor_cartera : ℚ
  flujo_cash : ℚ
deriving DecidableEq, Repr

/-- The valuation row `calculate_portfolio_value` appends for date `d`. -/
def valuationPoint (ops : List Operacion) (precios : List Precio)
    (sd : Option ℕ) (d : ℕ) : ValuationPoint :=
  let st := stateAt ops sd d
  ⟨d, portfolioValueAt precios st.1 d, st.2⟩

/-- `[a, a+1, ..., b]`. -/
def rangeDays (a b : ℕ) : List ℕ :=
  List.range' a (b + 1 - a)

/-- The `self.date_range` construction of `_process_data` (lines 78-93):
daily range from the earliest to the latest price date, the lower end lifted
to the start date (and the upper end lifted to keep the range nonempty) when
a start date is set.  On an empty price series `Fecha.min()` is `NaT` and
`pd.date_range` raises `ValueError` — modelled as `Except.error`. -/
def processDateRange (precios : List Precio) (sd : Option ℕ) : Except Unit (List ℕ) :=
  match precios.map (·.fecha) with
  | [] => Except.error ()
  | f :: fs =>
    let mn := fs.foldl min f
    let mx := fs.foldl max f
    match sd with
    | none => Except.ok (rangeDays mn mx)
    | some s =>
      let mn' := max mn s
      Except.ok (rangeDays mn' (if mn' > mx then mn' else mx))

/-- `calculate_portfolio_value` end to end: the date range of `_process_data`,
one `ValuationPoint` per day in it. -/
def portfolioValueSeries (ops : List Operacion) (precios : List Precio)
    (sd : Option ℕ) : Except Unit (List ValuationPoint) :=
  (processDateRange precios sd).map fun range => range.map (valuationPoint ops precios sd)

/-! ### Returns Engine -/

/-- The per-day cash flow of `calculate_daily_returns` (lines 256-261):
`purchases - sales - coupons - amortizations`, with Buy/Sell matched exactly,
coupons by exact membership in `{'Cupón', 'Cupon', 'Dividendo'}`, and
amortizations by keyword substring. -/
def dailyCashFlowReturns (ops : List Operacion) (d : ℕ) : ℚ :=
  let dayOps := ops.filter fun op => decide (op.fecha = d)
  let purchases := ((dayOps.filter fun op => pyStrip op.tipo = "Compra").map (·.monto)).sum
  let sales := ((dayOps.filter fun op => pyStrip op.tipo = "Venta").map (·.monto)).sum
  let coupons := ((dayOps.filter fun op => isReturnsCoupon op.tipo).map (·.monto)).sum
  let amortizations := ((dayOps.filter fun op => hasKeyword amortKeywords op.tipo).map (·.monto)).sum
  purchases - sales - coupons - amortizations

/-- One intermediate row of the `calculate_daily_returns` loop, before the
`Valor_Inicial` column is attached. -/
structure RetRow where
  fecha : ℕ
  rendimiento_diario : ℚ
  valor_cartera : ℚ
  daily_cash_flow : ℚ
  value_without_cash_flow : ℚ
deriving DecidableEq, Repr

/-- One iteration of the loop of lines 251-282.  The state is
`(initial_value, previous_value)`, both `None` at the start. -/
def retStep (ops : List Operacion) (st : Option ℚ × Option ℚ) (vp : ValuationPoint) :
    (Option ℚ × Option ℚ) × RetRow :=
  let cv := vp.valor_cartera
  let dcf := dailyCashFlowReturns ops vp.fecha
  if st.1 = none ∧ cv > 0 then
    ((some cv, some cv), ⟨vp.fecha, 0, cv, dcf, cv - dcf⟩)
  else if st.2 = none ∨ st.2 = some 0 then
    ((st.1, if cv > 0 then some cv else st.2), ⟨vp.fecha, 0, cv, dcf, cv - dcf⟩)
  else
    let prev := st.2.getD 0
    ((st.1, some cv), ⟨vp.fecha, (cv - dcf - prev) / prev, cv, dcf, cv - dcf⟩)

/-- Threads `retStep` over the valuation series, returning the final state and
the produced rows in order. -/
def retRows (ops : List Operacion) :
    (Option ℚ × Option ℚ) → List ValuationPoint → (Option ℚ × Option ℚ) × List RetRow
  | st, [] => (st, [])
  | st, vp :: rest =>
    let step := retStep ops st vp
    let tail := retRows ops step.1 rest
    (tail.1, step.2 :: tail.2)

/-- One row of the frame `calculate_daily_returns` returns. -/
structure ReturnPoint where
  fecha : ℕ
  rendimiento_diario : ℚ
  valor_cartera : ℚ
  daily_cash_flow : ℚ
  value_without_cash_flow : ℚ
  valor_inicial : ℚ
deriving DecidableEq, Repr

/-- `calculate_daily_returns` applied to a valuation series (lines 236-303):
the sequential loop, then the `Valor_Cartera > 0` filter, then the
`Valor_Inicial` column (the resolved initial value; the first retained value
when the loop never resolved one; 0 when there is nothing to retain). -/
def calculateDailyReturns (ops : List Operacion) (pts : List ValuationPoint) :
    List ReturnPoint :=
  let run := retRows ops (none, none) pts
  let filtered := run.2.filter fun r => decide (r.valor_cartera > 0)
  let initialValue : ℚ :=
    match run.1.1 with
    | some v => v
    | none => match filtered with
      | r :: _ => r.valor_cartera
      | [] => 0
  filtered.map fun r =>
    ⟨r.fecha, r.rendimiento_diario, r.valor_cartera, r.daily_cash_flow,
      r.value_without_cash_flow, initialValue⟩

/-! ### Metrics Calculator -/

/-- Insertion into a sorted list of rationals. -/
def insertSorted (x : ℚ) : List ℚ → List ℚ
  | [] => [x]
  | y :: rest => if x ≤ y then x :: y :: rest else y :: insertSorted x rest

/-- Ascending sort, as `np.percentile` sorts its input. -/
def sortQ (l : List ℚ) : List ℚ :=
  l.foldr insertSorted []

/-- `np.percentile(l, 5)` with the default linear interpolation: the value at
fractional rank `(n-1) * 5/100` of the sorted data.  Only called on nonempty
input (on empty input numpy raises, handled by the caller). -/
def percentile05 (l : List ℚ) : ℚ :=
  let s := sortQ l
  let n := s.length
  let lo := (n - 1) / 20
  let frac : ℚ := ((n - 1) % 20 : ℕ) / 20
  let a := s.getD lo 0
  let b := s.getD (lo + 1) a
  a + frac * (b - a)

/-- Mean of a list; `none` models the NaN pandas returns on an empty mean. -/
def meanQ (l : List ℚ) : Option ℚ :=
  match l with
  | [] => none
  | _ => some (l.sum / l.length)

/-- Cumulative products (`(1 + returns).cumprod()`), given the running
product accumulated so far. -/
def cumprods (acc : ℚ) : List ℚ → List ℚ
  | [] => []
  | x :: rest => (acc * x) :: cumprods (acc * x) rest

/-- Running maxima (`cumulative_returns.expanding().max()`), given the maximum
so far. -/
def runMaxFrom (m : ℚ) : List ℚ → List ℚ
  | [] => []
  | x :: rest => max m x :: runMaxFrom (max m x) rest

/-- Minimum of a list of rationals (`none` on empty, as pandas `min()` of an
empty series is NaN). -/
def minQ : List ℚ → Option ℚ
  | [] => none
  | x :: rest => some (rest.foldl min x)

/-- The drawdown series `(cum - running_max) / running_max`, and its minimum.
A running maximum of exactly 0 would make the float division produce
inf/NaN; that anomaly (reachable only through a daily return of exactly -1)
is modelled as `none`. -/
def maxDrawdownQ (returns : List ℚ) : Option ℚ :=
  let cum := cumprods 1 (returns.map (1 + ·))
  let rm := match cum with
    | [] => []
    | x :: rest => x :: runMaxFrom x rest
  if rm.all fun m => decide (m ≠ 0) then
    minQ ((cum.zip rm).map fun p => (p.1 - p.2) / p.2)
  else none

/-- The record `calculate_metrics` builds (lines 350-363).  Fields whose
defining float expression can be NaN are `Option ℚ`, `none` standing for NaN. -/
structure Metrics where
  total_return : ℚ
  annualized_return : ℚ
  volatility : Option ℚ
  sharpe : ℚ
  sortino : ℚ
  calmar : Option ℚ
  max_drawdown : Option ℚ
  win_rate : ℚ
  var_95 : ℚ
  cvar_95 : Option ℚ
  total_days : ℕ
  positive_days : ℕ
deriving DecidableEq, Repr

/-- `calculate_metrics` (lines 305-365).  Two irrational ingredients are taken
as oracle parameters so that everything else stays exactly the source's
formulas: `rpow` for the real power in `(1+total_return)**(252/days)`, and
`stdF` for `std()*sqrt(252)` (with `none` for the NaN pandas produces on
fewer than two samples).  No theorem below depends on either oracle's values.
`np.percentile` raises `IndexError` on an empty series, so the whole call is
`Except.error` there; otherwise it returns the metrics record. -/
def calculateMetrics (rpow : ℚ → ℚ → ℚ) (stdF : List ℚ → Option ℚ)
    (returns : List ℚ) (riskFreeRate : ℚ) : Except Unit Metrics :=
  if returns.length = 0 then Except.error ()
  else
    let totalReturn := ((returns.map (1 + ·)).prod) - 1
    let days := returns.length
    let annualized := if days > 0 then rpow (1 + totalReturn) (252 / (days : ℚ)) - 1 else 0
    let volatility := stdF returns
    let excess := annualized - riskFreeRate
    let sharpe := match volatility with
      | some v => if v > 0 then excess / v else 0
      | none => 0
    let maxDD := maxDrawdownQ returns
    let positiveDays := (returns.filter fun r => decide (r > 0)).length
    let winRate : ℚ := (positiveDays : ℚ) / (days : ℚ)
    let calmar : Option ℚ := match maxDD with
      | some md => if md ≠ 0 then some (annualized / |md|) else some 0
      | none => none
    let negatives := returns.filter fun r => decide (r < 0)
    let downside : Option ℚ := if negatives.length > 0 then stdF negatives else some 0
    let sortino := match downside with
      | some dv => if dv > 0 then excess / dv else 0
      | none => 0
    let var95 := percentile05 returns
    let cvar95 := meanQ (returns.filter fun r => decide (r ≤ var95))
    Except.ok
      { total_return := totalReturn
        annualized_return := annualized
        volatility := volatility
        sharpe := sharpe
        sortino := sortino
        calmar := calmar
        max_drawdown := maxDD
        win_rate := winRate
        var_95 := var95
        cvar_95 := cvar95
        total_days := days
        positive_days := positiveDays }

/-- A concrete stand-in for the power oracle, used only in closed instances
where the oracle's value is irrelevant. -/
def zeroRpow : ℚ → ℚ → ℚ := fun _ _ => 0

/-- A concrete stand-in for the standard-deviation oracle (`none` = NaN),
used only in closed instances where the oracle's value is irrelevant. -/
def nanStd : List ℚ → Option ℚ := fun _ => none

/-! ### Attribution Engine -/

/-- The per-asset accumulators of `calculate_attribution_analysis`
(lines 430-435). -/
structure AttrState where
  total_invested : ℚ
  current_quantity : ℚ
  weighted_price_sum : ℚ
  realized_gains : ℚ
  coupon_dividend_income : ℚ
  amortizations : ℚ
deriving DecidableEq, Repr

/-- One iteration of the per-asset replay of lines 438-475. -/
def attrStep (st : AttrState) (op : Operacion) : AttrState :=
  match classify op.tipo with
  | .buy =>
    { st with
      total_invested := st.total_invested + op.monto
      current_quantity := st.current_quantity + op.cantidad
      weighted_price_sum := st.weighted_price_sum + op.cantidad * op.precio_concertacion }
  | .sell =>
    let realized :=
      if st.current_quantity > 0 then
        st.realized_gains +
          (op.precio_concertacion - st.weighted_price_sum / st.current_quantity) * op.cantidad
      else st.realized_gains
    let newQty := st.current_quantity - op.cantidad
    if newQty ≤ 0 then
      { st with realized_gains := realized, current_quantity := 0, weighted_price_sum := 0 }
    else
      { st with
        realized_gains := realized
        current_quantity := newQty
        weighted_price_sum := st.weighted_price_sum / (newQty + op.cantidad) * newQty }
  | .coupon => { st with coupon_dividend_income := st.coupon_dividend_income + op.monto }
  | .amort => { st with amortizations := st.amortizations + op.monto }
  | .flujo => st
  | .unknown => st

/-- The full-ledger replay state `calculate_attribution_analysis` reaches for
one asset: a fold over `operaciones[operaciones['Activo'] == asset]` — the
whole ledger filtered by asset only, never by date. -/
def attrStateFor (ops : List Operacion) (asset : String) : AttrState :=
  (ops.filter fun op => op.activo = asset).foldl attrStep ⟨0, 0, 0, 0, 0, 0⟩

/-- One row of the frame `calculate_attribution_analysis` returns
(lines 507-522), with the source's column names. -/
structure AttributionRecord where
  activo : String
  peso : ℚ
  retorno_total : ℚ
  contribucion : ℚ
  valor_actual : ℚ
  precio_promedio : ℚ
  precio_actual : ℚ
  cantidad : ℚ
  ganancias_realizadas : ℚ
  ganancias_no_realizadas : ℚ
  ingresos_cupones_dividendos : ℚ
  amortizaciones : ℚ
  inversion_total : ℚ
deriving DecidableEq, Repr

/-- The record built for one asset (lines 477-522): `none` when the asset had
no positive invested amount (such assets are skipped).  `finalPortfolioValue`
is `portfolio_data['Valor_Cartera'].iloc[-1]` (1 when that frame is empty). -/
def attributionRecord (ops : List Operacion) (precios : List Precio)
    (finalPortfolioValue : ℚ) (asset : String) : Option AttributionRecord :=
  let st := attrStateFor ops asset
  if st.total_invested > 0 then
    let avgPurchasePrice :=
      if st.current_quantity > 0 then st.weighted_price_sum / st.current_quantity else 0
    let currentPrice :=
      (((precios.filter fun p => p.activo = asset).getLast?).map (·.precio)).getD 0
    let currentValue := st.current_quantity * currentPrice
    let unrealizedGain :=
      if st.current_quantity > 0 then currentValue - st.current_quantity * avgPurchasePrice
      else 0
    let totalGain :=
      st.realized_gains + unrealizedGain + st.coupon_dividend_income + st.amortizations
    let totalReturn := if st.total_invested > 0 then totalGain / st.total_invested else 0
    let weight := if finalPortfolioValue > 0 then currentValue / finalPortfolioValue else 0
    some
      { activo := asset
        peso := weight
        retorno_total := totalReturn
        contribucion := weight * totalReturn
        valor_actual := currentValue
        precio_promedio := avgPurchasePrice
        precio_actual := currentPrice
        cantidad := st.current_quantity
        ganancias_realizadas := st.realized_gains + st.coupon_dividend_income
        ganancias_no_realizadas := unrealizedGain
        ingresos_cupones_dividendos := st.coupon_dividend_income
        amortizaciones := st.amortizations
        inversion_total := st.total_invested }
  else none

/-- First-occurrence deduplication (`pandas.unique` preserves first-occurrence
order; Python's `set` union order is unspecified, and no claim depends on the
order of the asset list). -/
def dedupAux (seen : List String) : List String → List String
  | [] => []
  | a :: rest => if a ∈ seen then dedupAux seen rest else a :: dedupAux (a :: seen) rest

/-- The asset selection of lines 405-421: without a start date, every asset
with an operation; with one, assets having operations on or after the start
date united with the keys of the initial-position snapshot. -/
def attributionAssets (ops : List Operacion) (sd : Option ℕ) : List String :=
  match sd with
  | none => dedupAux [] (ops.map (·.activo))
  | some s =>
    dedupAux []
      (((ops.filter fun op => decide (s ≤ op.fecha)).map (·.activo)) ++
        (getInitialPositions ops s).map (·.1))

/-- `calculate_attribution_analysis` end to end: valuation series, final
portfolio value, one record per selected asset with positive investment. -/
def calculateAttributionAnalysis (ops : List Operacion) (precios : List Precio)
    (sd : Option ℕ) : Except Unit (List AttributionRecord) :=
  (processDateRange precios sd).map fun range =>
    let pts := range.map (valuationPoint ops precios sd)
    let pv := match pts.getLast? with
      | some p => p.valor_cartera
      | none => 1
    (attributionAssets ops sd).filterMap (attributionRecord ops precios pv)

/-- Equality of `Except` results is decidable (needed to evaluate the
pipeline's `Except Unit` results on concrete inputs). -/
instance {e a : Type} [DecidableEq e] [DecidableEq a] : DecidableEq (Except e a) := fun x y =>
  match x, y with
  | .error u, .error v =>
    if h : u = v then isTrue (by rw [h]) else isFalse (by intro hh; cases hh; exact h rfl)
  | .ok u, .ok v =>
    if h : u = v then isTrue (by rw [h]) else isFalse (by intro hh; cases hh; exact h rfl)
  | .error _, .ok _ => isFalse (by intro hh; cases hh)
  | .ok _, .error _ => isFalse (by intro hh; cases hh)

/-! ### Spec-side definitions (written from the specification's words, for
comparison with the engine's definitions above) -/

/-- Written from the claim's words: the sum of the amounts of the CashFlow
(`'Flujo'`) transactions dated exactly `d`. -/
def specDailyFlujoSum (ops : List Operacion) (d : ℕ) : ℚ :=
  ((ops.filter fun op =>
    decide (op.fecha = d) && decide (classify op.tipo = TxKind.flujo)).map (·.monto)).sum

/-- What the engine's `Flujo_Cash` accumulator actually sums: the amounts of
the `'Flujo'` transactions in the whole window of date `d` (every transaction
dated `≤ d`, restricted to dates `≥ start_date` when one is set). -/
def flujoSumWindow (ops : List Operacion) (sd : Option ℕ) (d : ℕ) : ℚ :=
  (((opsUntil ops sd d).filter fun op =>
    decide (classify op.tipo = TxKind.flujo)).map (·.monto)).sum

/-- Written from the claim's words (spec §4.1, Buy): the position the claim
says a Buy of `qty` units at unit price `p` produces. -/
def specBuyResult (old : Position) (qty p : ℚ) : Position :=
  if old.cantidad + qty > 0 then
    ⟨old.cantidad + qty, (old.cantidad * old.precio_promedio + qty * p) / (old.cantidad + qty)⟩
  else
    ⟨old.cantidad + qty, p⟩

/-! ### Concrete instances used in the scenario theorems below -/

def c4ps : Positions := [("X", ⟨10, 2⟩)]

def c4tx : Operacion := ⟨1, "Compra", "X", 100, 1, 100⟩

def c5ps : Positions := [("X", ⟨10, 2⟩), ("Y", ⟨5, 3⟩)]

def c5tx : Operacion := ⟨1, "Venta", "X", 4, 9, 36⟩

def c1op : Operacion := ⟨1, "Flujo", "X", 0, 0, 5⟩

def c6ops : List Operacion := [⟨1, "Venta", "X", 50, 2, 100⟩]

def c6precios : List Precio := [⟨1, "X", 2⟩]

def c3series : List ValuationPoint :=
  [⟨1, 0, 0⟩, ⟨2, 0, 0⟩, ⟨3, 100, 0⟩, ⟨4, 110, 0⟩, ⟨5, 0, 0⟩]

def c2ops : List Operacion :=
  [⟨1, "Compra", "X", 100, 1, 100⟩, ⟨10, "Cupón", "X", 0, 0, 3⟩,
    ⟨20, "Venta", "X", 100, 6/5, 120⟩]

def c2precios : List Precio := [⟨10, "X", 11/10⟩]

def c2record : AttributionRecord :=
  ⟨"X", 0, 23/100, 0, 0, 0, 11/10, 0, 23, 0, 3, 0, 100⟩

def c9ops : List Operacion := [⟨1, "Compra", "X", 100, 1, 100⟩]

def c10ops : List Operacion := [⟨1, "Compra", "X", 100, 1, 100⟩]

def c10precios : List Precio := [⟨1, "X", 2⟩]

def c10rec : AttributionRecord := ⟨"X", 1, 1, 1, 200, 1, 2, 100, 0, 100, 0, 0, 100⟩

/-! ### Position-map lemmas -/

theorem findPos_setPos_self (ps : Positions) (a : String) (v : Position) :
    findPos (setPos ps a v) a = some v := by
  induction ps with
  | nil => simp [setPos, findPos]
  | cons p rest ih =>
    obtain ⟨b, w⟩ := p
    by_cases h : b = a
    · simp [setPos, h, findPos]
    · simp [setPos, h, findPos, ih]

theorem findPos_setPos_ne (ps : Positions) (a b : String) (v : Position) (h : b ≠ a) :
    findPos (setPos ps a v) b = findPos ps b := by
  induction ps with
  | nil => simp [setPos, findPos, Ne.symm h]
  | cons p rest ih =>
    obtain ⟨c, w⟩ := p
    by_cases hc : c = a
    · subst hc
      simp [setPos, findPos, Ne.symm h]
    · simp [setPos, hc, findPos, ih]

theorem findPos_append (ps qs : Positions) (a : String) :
    findPos (ps ++ qs) a =
      match findPos ps a with
      | some w => some w
      | none => findPos qs a := by
  induction ps with
  | nil => simp [findPos]
  | cons p rest ih =>
    obtain ⟨b, w⟩ := p
    by_cases h : b = a <;> simp [findPos, h, ih]

theorem findPos_ensurePos_self (ps : Positions) (a : String) :
    findPos (ensurePos ps a) a = some ((findPos ps a).getD ⟨0, 0⟩) := by
  unfold ensurePos
  cases h : findPos ps a with
  | some w => simp [h]
  | none => simp [h, findPos_append, findPos]

theorem findPos_ensurePos_ne (ps : Positions) (a b : String) (h : b ≠ a) :
    findPos (ensurePos ps a) b = findPos ps b := by
  unfold ensurePos
  cases hs : findPos ps a with
  | some w => simp
  | none =>
    simp only [hs, Option.isSome_none, Bool.false_eq_true, if_false, findPos_append]
    cases hb : findPos ps b with
    | some w => rfl
    | none => simp [findPos, Ne.symm h]

/-! ### The kind dispatch, characterised -/

theorem classify_eq (t : String) :
    classify t =
      if pyStrip t = "Compra" then .buy
      else if pyStrip t = "Venta" then .sell
      else if hasKeyword couponKeywords (pyStrip t) then .coupon
      else if hasKeyword amortKeywords (pyStrip t) then .amort
      else if pyStrip t = "Flujo" then .flujo
      else .unknown := rfl

theorem classify_buy_iff (t : String) : classify t = TxKind.buy ↔ pyStrip t = "Compra" := by
  constructor
  · intro h
    rw [classify_eq] at h
    by_cases h1 : pyStrip t = "Compra" <;> by_cases h2 : pyStrip t = "Venta" <;>
      by_cases h3 : hasKeyword couponKeywords (pyStrip t) = true <;>
      by_cases h4 : hasKeyword amortKeywords (pyStrip t) = true <;>
      by_cases h5 : pyStrip t = "Flujo" <;> simp_all
  · intro h
    rw [classify_eq, h]
    decide

theorem classify_sell_iff (t : String) : classify t = TxKind.sell ↔ pyStrip t = "Venta" := by
  constructor
  · intro h
    rw [classify_eq] at h
    by_cases h1 : pyStrip t = "Compra" <;> by_cases h2 : pyStrip t = "Venta" <;>
      by_cases h3 : hasKeyword couponKeywords (pyStrip t) = true <;>
      by_cases h4 : hasKeyword amortKeywords (pyStrip t) = true <;>
      by_cases h5 : pyStrip t = "Flujo" <;> simp_all
  · intro h
    rw [classify_eq, h]
    decide

theorem classify_flujo_iff (t : String) : classify t = TxKind.flujo ↔ pyStrip t = "Flujo" := by
  constructor
  · intro h
    rw [classify_eq] at h
    by_cases h1 : pyStrip t = "Compra" <;> by_cases h2 : pyStrip t = "Venta" <;>
      by_cases h3 : hasKeyword couponKeywords (pyStrip t) = true <;>
      by_cases h4 : hasKeyword amortKeywords (pyStrip t) = true <;>
      by_cases h5 : pyStrip t = "Flujo" <;> simp_all
  · intro h
    rw [classify_eq, h]
    decide

theorem classify_coupon_iff (t : String) :
    classify t = TxKind.coupon ↔
      (pyStrip t ≠ "Compra" ∧ pyStrip t ≠ "Venta" ∧
        hasKeyword couponKeywords (pyStrip t) = true) := by
  constructor
  · intro h
    rw [classify_eq] at h
    by_cases h1 : pyStrip t = "Compra" <;> by_cases h2 : pyStrip t = "Venta" <;>
      by_cases h3 : hasKeyword couponKeywords (pyStrip t) = true <;>
      by_cases h4 : hasKeyword amortKeywords (pyStrip t) = true <;>
      by_cases h5 : pyStrip t = "Flujo" <;> simp_all
  · rintro ⟨h1, h2, h3⟩
    rw [classify_eq]
    simp [h1, h2, h3]

theorem classify_amort_iff (t : String) :
    classify t = TxKind.amort ↔
      (pyStrip t ≠ "Compra" ∧ pyStrip t ≠ "Venta" ∧
        hasKeyword couponKeywords (pyStrip t) = false ∧
        hasKeyword amortKeywords (pyStrip t) = true) := by
  constructor
  · intro h
    rw [classify_eq] at h
    by_cases h1 : pyStrip t = "Compra" <;> by_cases h2 : pyStrip t = "Venta" <;>
      by_cases h3 : hasKeyword couponKeywords (pyStrip t) = true <;>
      by_cases h4 : hasKeyword amortKeywords (pyStrip t) = true <;>
      by_cases h5 : pyStrip t = "Flujo" <;> simp_all
  · rintro ⟨h1, h2, h3, h4⟩
    rw [classify_eq]
    simp [h1, h2, h3, h4]

/-! ### C4 / C5: the Buy and Sell transitions -/

/-- **C4.** For every position state and every Buy transaction, the tracker
sets `new_quantity = old_quantity + qty` and `new_avg_cost =
(old_quantity*old_avg_cost + qty*unit_price) / new_quantity` when
`new_quantity > 0`, else `unit_price` — in the valuation loop (`applyOp`) and
in `_get_initial_positions` (`applyOpInit`) alike. -/
theorem c4_buy_transition (ps : Positions) (cf : ℚ) (tx : Operacion)
    (h : pyStrip tx.tipo = "Compra") :
    findPos (applyOp (ps, cf) tx).1 tx.activo =
      some (specBuyResult ((findPos ps tx.activo).getD ⟨0, 0⟩)
        tx.cantidad tx.precio_concertacion)
    ∧ findPos (applyOpInit ps tx) tx.activo =
      some (specBuyResult ((findPos ps tx.activo).getD ⟨0, 0⟩)
        tx.cantidad tx.precio_concertacion) := by
  have hb : classify tx.tipo = TxKind.buy := (classify_buy_iff _).mpr h
  constructor
  · simp only [applyOp, hb]
    rw [findPos_setPos_self, findPos_ensurePos_self]
    simp [buyUpdate, specBuyResult]
  · simp only [applyOpInit, h, if_pos]
    rw [findPos_setPos_self, findPos_ensurePos_self]
    simp [buyUpdate, specBuyResult]

theorem c4_buy_transition_witness :
    pyStrip c4tx.tipo = "Compra"
    ∧ (findPos (applyOp (c4ps, 0) c4tx).1 c4tx.activo =
        some (specBuyResult ((findPos c4ps c4tx.activo).getD ⟨0, 0⟩)
          c4tx.cantidad c4tx.precio_concertacion)
      ∧ findPos (applyOpInit c4ps c4tx) c4tx.activo =
        some (specBuyResult ((findPos c4ps c4tx.activo).getD ⟨0, 0⟩)
          c4tx.cantidad c4tx.precio_concertacion)) :=
  ⟨by decide, c4_buy_transition c4ps 0 c4tx (by decide)⟩

/-- **C5.** For every position state and every Sell transaction, the tracker
decreases the asset's quantity by `qty`, leaves its `precio_promedio`
unchanged, leaves every other asset's entry unchanged, and leaves the cash
accumulator unchanged. -/
theorem c5_sell_transition (ps : Positions) (cf : ℚ) (tx : Operacion)
    (h : pyStrip tx.tipo = "Venta") :
    findPos (applyOp (ps, cf) tx).1 tx.activo =
      some ⟨((findPos ps tx.activo).getD ⟨0, 0⟩).cantidad - tx.cantidad,
            ((findPos ps tx.activo).getD ⟨0, 0⟩).precio_promedio⟩
    ∧ (∀ b, b ≠ tx.activo → findPos (applyOp (ps, cf) tx).1 b = findPos ps b)
    ∧ (applyOp (ps, cf) tx).2 = cf := by
  have hs : classify tx.tipo = TxKind.sell := (classify_sell_iff _).mpr h
  refine ⟨?_, ?_, ?_⟩
  · simp only [applyOp, hs]
    rw [findPos_setPos_self, findPos_ensurePos_self]
    simp
  · intro b hb
    simp only [applyOp, hs]
    rw [findPos_setPos_ne _ _ _ _ hb, findPos_ensurePos_ne _ _ _ hb]
  · simp [applyOp, hs]

theorem c5_sell_transition_witness :
    pyStrip c5tx.tipo = "Venta"
    ∧ (findPos (applyOp (c5ps, 0) c5tx).1 c5tx.activo =
        some ⟨((findPos c5ps c5tx.activo).getD ⟨0, 0⟩).cantidad - c5tx.cantidad,
              ((findPos c5ps c5tx.activo).getD ⟨0, 0⟩).precio_promedio⟩
      ∧ (∀ b, b ≠ c5tx.activo → findPos (applyOp (c5ps, 0) c5tx).1 b = findPos c5ps b)
      ∧ (applyOp (c5ps, 0) c5tx).2 = 0) :=
  ⟨by decide, c5_sell_transition c5ps 0 c5tx (by decide)⟩

/-! ### C1: the `Flujo_Cash` accumulator -/

theorem applyOp_snd (st : Positions × ℚ) (op : Operacion) :
    (applyOp st op).2 =
      st.2 + (if classify op.tipo = TxKind.flujo then op.monto else 0) := by
  rcases h : classify op.tipo <;> simp [applyOp, h]

theorem foldl_applyOp_snd (l : List Operacion) :
    ∀ st : Positions × ℚ,
      (l.foldl applyOp st).2 =
        st.2 + (((l.filter fun op =>
          decide (classify op.tipo = TxKind.flujo)).map (·.monto)).sum) := by
  induction l with
  | nil => intro st; simp
  | cons op rest ih =>
    intro st
    rw [List.foldl_cons, ih, applyOp_snd, List.filter_cons]
    by_cases h : classify op.tipo = TxKind.flujo
    · simp [h]
      ring
    · simp [h]

/-- **C1 (amended).** The `Flujo_Cash` field of the valuation row for date `d`
is the *cumulative* sum of the `'Flujo'` amounts over the whole transaction
window of `d` (all transactions dated `≤ d`, restricted to dates
`≥ start_date` when one is set) — not only those dated exactly `d`. -/
theorem c1_flujo_cash_cumulative (ops : List Operacion) (precios : List Precio)
    (sd : Option ℕ) (d : ℕ) :
    (valuationPoint ops precios sd d).flujo_cash = flujoSumWindow ops sd d := by
  show (stateAt ops sd d).2 = _
  unfold stateAt flujoSumWindow
  rw [foldl_applyOp_snd]
  simp

/-- **C1 (counterexample).** One CashFlow of amount 5 on day 1: the valuation
row for day 2 carries `Flujo_Cash = 5`, while the sum of the CashFlow
transactions dated exactly day 2 is 0 — the field includes amounts from
CashFlow transactions dated before `d`. -/
theorem c1_counterexample :
    (valuationPoint [c1op] [] none 2).flujo_cash = 5
    ∧ specDailyFlujoSum [c1op] 2 = 0
    ∧ (5 : ℚ) ≠ 0 := by
  have hc : classify "Flujo" = TxKind.flujo := by decide
  refine ⟨?_, ?_, by norm_num⟩
  · show (stateAt [c1op] none 2).2 = 5
    unfold stateAt
    rw [foldl_applyOp_snd]
    simp [opsUntil, hc, c1op]
  · simp [specDailyFlujoSum, c1op]

/-! ### C6: negative quantities and valuation -/

/-- **C6 (counterexample).** A Sell with no prior holdings drives the tracked
quantity of `X` to -50, and `X` has a resolvable price (2) on day 1; the claim
says the asset then contributes `quantity*price = -100` to the market value,
but `calculate_portfolio_value` values only positions with `cantidad > 0`, so
the market value is 0. -/
theorem c6_counterexample :
    findPos (stateAt c6ops none 1).1 "X" = some ⟨-50, 0⟩
    ∧ lastPriceUpTo c6precios "X" 1 = some 2
    ∧ (valuationPoint c6ops c6precios none 1).valor_cartera = 0
    ∧ (0 : ℚ) ≠ -50 * 2 := by
  have hs : classify (Operacion.tipo ⟨1, "Venta", "X", 50, 2, 100⟩) = TxKind.sell := by decide
  have hstate : stateAt c6ops none 1 = ([("X", ⟨-50, 0⟩)], 0) := by
    unfold stateAt opsUntil c6ops
    simp only [List.filter, List.foldl, applyOp, hs]
    norm_num [ensurePos, findPos, setPos]
  refine ⟨?_, by simp [lastPriceUpTo, c6precios], ?_, by norm_num⟩
  · rw [hstate]
    decide
  · show portfolioValueAt c6precios (stateAt c6ops none 1).1 1 = 0
    rw [hstate]
    norm_num [portfolioValueAt]

/-- **C6 (amended).** A negative (or zero) tracked quantity never propagates
into valuation: dropping every non-positive-quantity entry from the position
map leaves `portfolioValueAt` unchanged, so such an asset contributes 0 even
when a price is resolvable. -/
theorem c6_nonpositive_quantity_excluded (precios : List Precio) (ps : Positions) (d : ℕ) :
    portfolioValueAt precios ps d =
      portfolioValueAt precios (ps.filter fun p => decide (p.2.cantidad > 0)) d := by
  induction ps with
  | nil => rfl
  | cons p rest ih =>
    by_cases h : p.2.cantidad > 0
    · simp [portfolioValueAt, List.filter_cons, h, ih]
    · simp [portfolioValueAt, List.filter_cons, h, ih]

/-! ### C7: how transaction kinds are recognised -/

/-- **C7 (amended).** The matching is not a uniform case-insensitive substring
test: Buy, Sell and CashFlow are recognised by exact, case-sensitive equality
of the stripped kind with `'Compra'`/`'Venta'`/`'Flujo'`; only
Coupon/Dividend and Amortization use case-insensitive stripped substring
keywords; and the returns-purification coupon filter instead uses exact
membership in `{'Cupón', 'Cupon', 'Dividendo'}` (so `'Interes'`, a coupon for
the position/attribution dispatch, is not a coupon there). -/
theorem c7_kind_matching :
    (∀ t, classify t = TxKind.buy ↔ pyStrip t = "Compra")
    ∧ (∀ t, classify t = TxKind.sell ↔ pyStrip t = "Venta")
    ∧ (∀ t, classify t = TxKind.flujo ↔ pyStrip t = "Flujo")
    ∧ (∀ t, classify t = TxKind.coupon ↔
        (pyStrip t ≠ "Compra" ∧ pyStrip t ≠ "Venta" ∧
          hasKeyword couponKeywords (pyStrip t) = true))
    ∧ (∀ t, classify t = TxKind.amort ↔
        (pyStrip t ≠ "Compra" ∧ pyStrip t ≠ "Venta" ∧
          hasKeyword couponKeywords (pyStrip t) = false ∧
          hasKeyword amortKeywords (pyStrip t) = true))
    ∧ (classify "Interes" = TxKind.coupon ∧ isReturnsCoupon "Interes" = false) :=
  ⟨classify_buy_iff, classify_sell_iff, classify_flujo_iff,
    classify_coupon_iff, classify_amort_iff, by decide, by decide⟩

/-- **C7 (counterexample).** The kind string `"compra"` contains the substring
`"compra"`, yet the engine does not process it as a Buy: it classifies as
unknown, and the position transition leaves the quantity at 0 instead of
adding the bought 100 units. -/
theorem c7_counterexample :
    containsSub "compra".data (pyLower (pyStrip "compra")).data = true
    ∧ classify "compra" = TxKind.unknown
    ∧ findPos (applyOp ([], 0) ⟨1, "compra", "X", 100, 1, 100⟩).1 "X" = some ⟨0, 0⟩ := by
  decide

/-! ### C3: the daily-returns scenario -/

/-- **C3.** On the valuation series `[0, 0, 100, 110, 0]` (days 1-5) with zero
daily cash flow on the two positive-value days, `calculate_daily_returns`
returns exactly the two positive-value days, with return 0 on the first and
`(110-100)/100 = 1/10` on the second, and `Valor_Inicial = 100` attached to
every retained row. -/
theorem c3_daily_returns_scenario (ops : List Operacion)
    (h3 : dailyCashFlowReturns ops 3 = 0) (h4 : dailyCashFlowReturns ops 4 = 0) :
    calculateDailyReturns ops c3series =
      [⟨3, 0, 100, 0, 100, 100⟩, ⟨4, 1/10, 110, 0, 110, 100⟩] := by
  unfold calculateDailyReturns c3series
  simp only [retRows, retStep]
  simp [h3, h4]
  norm_num

theorem c3_daily_returns_scenario_witness :
    dailyCashFlowReturns [] 3 = 0 ∧ dailyCashFlowReturns [] 4 = 0
    ∧ calculateDailyReturns [] c3series =
        [⟨3, 0, 100, 0, 100, 100⟩, ⟨4, 1/10, 110, 0, 110, 100⟩] :=
  ⟨by norm_num [dailyCashFlowReturns], by norm_num [dailyCashFlowReturns],
    c3_daily_returns_scenario [] (by norm_num [dailyCashFlowReturns])
      (by norm_num [dailyCashFlowReturns])⟩

/-! ### C2: the attribution scenario -/

theorem c2_state : attrStateFor c2ops "X" = ⟨100, 0, 0, 20, 3, 0⟩ := by
  have hbuy : classify "Compra" = TxKind.buy := by decide
  have hcoup : classify "Cupón" = TxKind.coupon := by decide
  have hsell : classify "Venta" = TxKind.sell := by decide
  unfold attrStateFor c2ops
  simp [attrStep, hbuy, hcoup, hsell]
  norm_num

theorem c2_valuation : valuationPoint c2ops c2precios none 10 = ⟨10, 110, 0⟩ := by
  have hbuy : classify "Compra" = TxKind.buy := by decide
  have hcoup : classify "Cupón" = TxKind.coupon := by decide
  unfold valuationPoint stateAt opsUntil c2ops
  simp [applyOp, hbuy, hcoup, ensurePos, findPos, setPos, buyUpdate,
    portfolioValueAt, lastPriceUpTo, c2precios]
  norm_num

theorem c2_record_eq : attributionRecord c2ops c2precios 110 "X" = some c2record := by
  unfold attributionRecord
  rw [c2_state]
  simp [c2precios, c2record]
  norm_num

theorem c2_assets : attributionAssets c2ops none = ["X"] := by
  simp [attributionAssets, c2ops, dedupAux]

theorem c2_pipeline :
    calculateAttributionAnalysis c2ops c2precios none = Except.ok [c2record] := by
  have hrange : processDateRange c2precios none = Except.ok [10] := by decide
  unfold calculateAttributionAnalysis
  rw [hrange]
  simp only [Except.map, List.map_cons, List.map_nil, c2_valuation, c2_assets]
  simp [List.getLast?, c2_record_eq]

/-- **C2 (amended).** For the Buy 100@1 / Coupon 3 / Sell 100@1.2 ledger, the
record returned by `calculate_attribution_analysis` has `Inversion_Total =
100`, `Ingresos_Cupones_Dividendos = 3` and `Retorno_Total = 23/100 = 0.23`,
but its `Ganancias_Realizadas` field is 23 (sale gain 20 *plus* the coupon
income 3, as the source adds income into the reported realized gains); the
sale-gain accumulator itself is 20. -/
theorem c2_attribution_scenario :
    calculateAttributionAnalysis c2ops c2precios none = Except.ok [c2record]
    ∧ (attrStateFor c2ops "X").realized_gains = 20
    ∧ c2record.ganancias_realizadas = 23
    ∧ c2record.ingresos_cupones_dividendos = 3
    ∧ c2record.inversion_total = 100
    ∧ c2record.retorno_total = 23 / 100 :=
  ⟨c2_pipeline, by rw [c2_state], rfl, rfl, rfl, rfl⟩

/-- **C2 (counterexample).** The realized-gain field of the returned record is
23, not the claimed 20. -/
theorem c2_counterexample :
    (calculateAttributionAnalysis c2ops c2precios none).map
        (fun l => l.map (·.ganancias_realizadas)) = Except.ok [23]
    ∧ (23 : ℚ) ≠ 20 := by
  constructor
  · rw [c2_pipeline]
    rfl
  · norm_num

/-! ### C9: the empty price series -/

theorem foldl_min_le (fs : List ℕ) : ∀ f : ℕ, fs.foldl min f ≤ f := by
  induction fs with
  | nil => intro f; exact le_refl f
  | cons x rest ih => intro f; exact le_trans (ih (min f x)) (min_le_left f x)

theorem le_foldl_max (fs : List ℕ) : ∀ f : ℕ, f ≤ fs.foldl max f := by
  induction fs with
  | nil => intro f; exact le_refl f
  | cons x rest ih => intro f; exact le_trans (le_max_left f x) (ih (max f x))

theorem rangeDays_ne_nil (a b : ℕ) (h : a ≤ b) : rangeDays a b ≠ [] := by
  intro hh
  have hlen := congrArg List.length hh
  simp [rangeDays, List.length_range'] at hlen
  omega

/-- **C9 (amended).** The valuation pipeline raises on an empty price series
(the date range is built from `Fecha.min()`/`Fecha.max()`, which are `NaT`
there, and `pd.date_range` raises on `NaT`) — and *only* there; on a nonempty
price series the produced `ValuationPoint` sequence is never empty. -/
theorem c9_empty_prices (ops : List Operacion) (precios : List Precio) (sd : Option ℕ) :
    (portfolioValueSeries ops precios sd = Except.error () ↔ precios = [])
    ∧ ∀ pts, portfolioValueSeries ops precios sd = Except.ok pts → pts ≠ [] := by
  cases precios with
  | nil =>
    refine ⟨by simp [portfolioValueSeries, processDateRange, Except.map], ?_⟩
    intro pts hpts
    simp [portfolioValueSeries, processDateRange, Except.map] at hpts
  | cons p rest =>
    have hminmax :
        (rest.map Precio.fecha).foldl min p.fecha ≤ (rest.map Precio.fecha).foldl max p.fecha :=
      le_trans (foldl_min_le _ _) (le_foldl_max _ _)
    refine ⟨⟨?_, by intro h; cases h⟩, ?_⟩
    · intro h
      exfalso
      cases sd with
      | none => simp [portfolioValueSeries, processDateRange, Except.map] at h
      | some s => simp [portfolioValueSeries, processDateRange, Except.map] at h
    · intro pts hpts hnil
      subst hnil
      cases sd with
      | none =>
        simp [portfolioValueSeries, processDateRange, Except.map] at hpts
        exact rangeDays_ne_nil _ _ hminmax hpts
      | some s =>
        simp [portfolioValueSeries, processDateRange, Except.map] at hpts
        split at hpts
        · exact rangeDays_ne_nil _ _ (le_refl _) hpts
        · rename_i hcond
          exact rangeDays_ne_nil _ _ (by omega) hpts

/-- **C9 (counterexample).** With a nonempty ledger and no price observation
at all, the pipeline yields an error (the `pd.date_range` construction
raises), not the empty `ValuationPoint` sequence claimed. -/
theorem c9_counterexample :
    portfolioValueSeries c9ops [] none = Except.error ()
    ∧ portfolioValueSeries c9ops [] none ≠ Except.ok [] := by
  refine ⟨rfl, ?_⟩
  intro h
  cases h

/-! ### C8: metrics guards and the empty return series -/

/-- **C8 (amended).** On every *nonempty* daily return series the metrics
computation returns a record, and each guarded ratio degrades to 0 when its
denominator is unavailable or non-positive (sharpe with NaN or non-positive
volatility, sortino with no negative days, calmar with zero drawdown); on the
*empty* series, however, the computation raises (`np.percentile` over no
data) instead of resolving every metric to a neutral default. -/
theorem c8_metrics_guards (rpow : ℚ → ℚ → ℚ) (stdF : List ℚ → Option ℚ)
    (returns : List ℚ) (rf : ℚ) (h : returns ≠ []) :
    (∃ m, calculateMetrics rpow stdF returns rf = Except.ok m
      ∧ (stdF returns = none → m.sharpe = 0)
      ∧ (∀ v, stdF returns = some v → ¬v > 0 → m.sharpe = 0)
      ∧ (m.max_drawdown = some 0 → m.calmar = some 0)
      ∧ (returns.filter (fun r => decide (r < 0)) = [] → m.sortino = 0))
    ∧ calculateMetrics rpow stdF [] rf = Except.error () := by
  have hlen : ¬returns.length = 0 := by simpa using h
  constructor
  · unfold calculateMetrics
    rw [if_neg hlen]
    refine ⟨_, rfl, ?_, ?_, ?_, ?_⟩
    · intro hn
      simp [hn]
    · intro v hv hnv
      simp [hv, hnv]
    · intro hmd
      simp only [Metrics.max_drawdown] at hmd
      simp [hmd]
    · intro hneg
      simp [hneg]
  · rfl

/-- **C8 (counterexample).** On the empty return series the metrics
computation yields an error (the 5th-percentile of no data raises), never a
record of neutral defaults. -/
theorem c8_counterexample :
    calculateMetrics zeroRpow nanStd [] (1/20) = Except.error ()
    ∧ ∀ m, calculateMetrics zeroRpow nanStd [] (1/20) ≠ Except.ok m := by
  refine ⟨rfl, fun m hh => ?_⟩
  rw [show calculateMetrics zeroRpow nanStd [] (1/20) = Except.error () from rfl] at hh
  exact Except.noConfusion hh

theorem c8_metrics_guards_witness :
    (([0] : List ℚ) ≠ [])
    ∧ ((∃ m, calculateMetrics zeroRpow nanStd [0] (1/20) = Except.ok m
      ∧ (nanStd [0] = none → m.sharpe = 0)
      ∧ (∀ v, nanStd [0] = some v → ¬v > 0 → m.sharpe = 0)
      ∧ (m.max_drawdown = some 0 → m.calmar = some 0)
      ∧ (([0] : List ℚ).filter (fun r => decide (r < 0)) = [] → m.sortino = 0))
    ∧ calculateMetrics zeroRpow nanStd [] (1/20) = Except.error ()) :=
  ⟨by simp, c8_metrics_guards zeroRpow nanStd [0] (1/20) (by simp)⟩

/-! ### C10: attribution replays the full ledger -/

theorem attributionRecord_some (ops : List Operacion) (precios : List Precio)
    (pv : ℚ) (a : String) (r : AttributionRecord)
    (h : attributionRecord ops precios pv a = some r) :
    r.activo = a
    ∧ r.inversion_total = (attrStateFor ops a).total_invested
    ∧ r.cantidad = (attrStateFor ops a).current_quantity
    ∧ r.ingresos_cupones_dividendos = (attrStateFor ops a).coupon_dividend_income
    ∧ r.amortizaciones = (attrStateFor ops a).amortizations
    ∧ r.ganancias_realizadas =
        (attrStateFor ops a).realized_gains + (attrStateFor ops a).coupon_dividend_income := by
  simp only [attributionRecord] at h
  by_cases hpos : (attrStateFor ops a).total_invested > 0
  · rw [if_pos hpos] at h
    have hr := Option.some.inj h
    rw [← hr]
    simp
  · rw [if_neg hpos] at h
    cases h

/-- **C10.** Whatever the analysis start date, the per-asset accumulators of
`calculate_attribution_analysis` come from replaying *all* of that asset's
transactions in the full ledger (`attrStateFor`); two runs with different
start dates agree on every accumulator-derived field of an asset's record
(the start date only selects assets and fixes the weight denominator). -/
theorem c10_attribution_full_ledger (ops : List Operacion) (precios : List Precio)
    (sd₁ sd₂ : Option ℕ) (l₁ l₂ : List AttributionRecord) (r₁ r₂ : AttributionRecord)
    (h₁ : calculateAttributionAnalysis ops precios sd₁ = Except.ok l₁)
    (h₂ : calculateAttributionAnalysis ops precios sd₂ = Except.ok l₂)
    (m₁ : r₁ ∈ l₁) (m₂ : r₂ ∈ l₂) (hact : r₁.activo = r₂.activo) :
    r₁.inversion_total = (attrStateFor ops r₁.activo).total_invested
    ∧ r₁.cantidad = (attrStateFor ops r₁.activo).current_quantity
    ∧ r₁.ingresos_cupones_dividendos = (attrStateFor ops r₁.activo).coupon_dividend_income
    ∧ r₁.amortizaciones = (attrStateFor ops r₁.activo).amortizations
    ∧ r₁.ganancias_realizadas =
        (attrStateFor ops r₁.activo).realized_gains +
          (attrStateFor ops r₁.activo).coupon_dividend_income
    ∧ r₁.inversion_total = r₂.inversion_total
    ∧ r₁.cantidad = r₂.cantidad
    ∧ r₁.ingresos_cupones_dividendos = r₂.ingresos_cupones_dividendos
    ∧ r₁.amortizaciones = r₂.amortizaciones
    ∧ r₁.ganancias_realizadas = r₂.ganancias_realizadas := by
  have key : ∀ (sd : Option ℕ) (l : List AttributionRecord) (r : AttributionRecord),
      calculateAttributionAnalysis ops precios sd = Except.ok l → r ∈ l →
      r.inversion_total = (attrStateFor ops r.activo).total_invested
      ∧ r.cantidad = (attrStateFor ops r.activo).current_quantity
      ∧ r.ingresos_cupones_dividendos = (attrStateFor ops r.activo).coupon_dividend_income
      ∧ r.amortizaciones = (attrStateFor ops r.activo).amortizations
      ∧ r.ganancias_realizadas =
          (attrStateFor ops r.activo).realized_gains +
            (attrStateFor ops r.activo).coupon_dividend_income := by
    intro sd l r hl hr
    unfold calculateAttributionAnalysis at hl
    cases hp : processDateRange precios sd with
    | error e =>
      rw [hp] at hl
      simp [Except.map] at hl
    | ok range =>
      rw [hp] at hl
      simp only [Except.map, Except.ok.injEq] at hl
      subst hl
      obtain ⟨a, -, ha⟩ := List.mem_filterMap.mp hr
      obtain ⟨hact', hfields⟩ := attributionRecord_some ops precios _ a r ha
      rw [hact']
      exact hfields
  obtain ⟨k1, k2, k3, k4, k5⟩ := key sd₁ l₁ r₁ h₁ m₁
  obtain ⟨j1, j2, j3, j4, j5⟩ := key sd₂ l₂ r₂ h₂ m₂
  rw [← hact] at j1 j2 j3 j4 j5
  exact ⟨k1, k2, k3, k4, k5, k1.trans j1.symm, k2.trans j2.symm, k3.trans j3.symm,
    k4.trans j4.symm, k5.trans j5.symm⟩

theorem c10_state : attrStateFor c10ops "X" = ⟨100, 100, 100, 0, 0, 0⟩ := by
  have hbuy : classify "Compra" = TxKind.buy := by decide
  unfold attrStateFor c10ops
  simp [attrStep, hbuy]

theorem c10_val_none : valuationPoint c10ops c10precios none 1 = ⟨1, 200, 0⟩ := by
  have hbuy : classify "Compra" = TxKind.buy := by decide
  unfold valuationPoint stateAt opsUntil c10ops
  simp [applyOp, hbuy, ensurePos, findPos, setPos, buyUpdate,
    portfolioValueAt, lastPriceUpTo, c10precios]
  norm_num

theorem c10_init : getInitialPositions c10ops 2 = [("X", ⟨100, 1⟩)] := by
  have hstrip : pyStrip "Compra" = "Compra" := by decide
  unfold getInitialPositions c10ops
  simp [applyOpInit, hstrip, ensurePos, findPos, setPos, buyUpdate]

theorem c10_val_some : valuationPoint c10ops c10precios (some 2) 2 = ⟨2, 200, 0⟩ := by
  unfold valuationPoint stateAt opsUntil
  dsimp only
  rw [c10_init]
  simp [c10ops, portfolioValueAt, lastPriceUpTo, c10precios]
  norm_num

theorem c10_assets_none : attributionAssets c10ops none = ["X"] := by
  simp [attributionAssets, c10ops, dedupAux]

theorem c10_assets_some : attributionAssets c10ops (some 2) = ["X"] := by
  unfold attributionAssets
  dsimp only
  rw [c10_init]
  simp [c10ops, dedupAux]

theorem c10_rec_eq : attributionRecord c10ops c10precios 200 "X" = some c10rec := by
  unfold attributionRecord
  rw [c10_state]
  simp [c10precios, c10rec]
  norm_num

theorem c10_pipeline_none :
    calculateAttributionAnalysis c10ops c10precios none = Except.ok [c10rec] := by
  have hrange : processDateRange c10precios none = Except.ok [1] := by decide
  unfold calculateAttributionAnalysis
  rw [hrange]
  simp only [Except.map, List.map_cons, List.map_nil, c10_val_none, c10_assets_none]
  simp [List.getLast?, c10_rec_eq]

theorem c10_pipeline_some :
    calculateAttributionAnalysis c10ops c10precios (some 2) = Except.ok [c10rec] := by
  have hrange : processDateRange c10precios (some 2) = Except.ok [2] := by decide
  unfold calculateAttributionAnalysis
  rw [hrange]
  simp only [Except.map, List.map_cons, List.map_nil, c10_val_some, c10_assets_some]
  simp [List.getLast?, c10_rec_eq]

theorem c10_attribution_full_ledger_witness :
    c10rec.inversion_total = (attrStateFor c10ops c10rec.activo).total_invested
    ∧ c10rec.cantidad = (attrStateFor c10ops c10rec.activo).current_quantity
    ∧ c10rec.ingresos_cupones_dividendos =
        (attrStateFor c10ops c10rec.activo).coupon_dividend_income
    ∧ c10rec.amortizaciones = (attrStateFor c10ops c10rec.activo).amortizations
    ∧ c10rec.ganancias_realizadas =
        (attrStateFor c10ops c10rec.activo).realized_gains +
          (attrStateFor c10ops c10rec.activo).coupon_dividend_income
    ∧ c10rec.inversion_total = c10rec.inversion_total
    ∧ c10rec.cantidad = c10rec.cantidad
    ∧ c10rec.ingresos_cupones_dividendos = c10rec.ingresos_cupones_dividendos
    ∧ c10rec.amortizaciones = c10rec.amortizaciones
    ∧ c10rec.ganancias_realizadas = c10rec.ganancias_realizadas :=
  c10_attribution_full_ledger c10ops c10precios none (some 2) [c10rec] [c10rec] c10rec c10rec
    c10_pipeline_none c10_pipeline_some (by simp) (by simp) rfl
